import Mathlib

/-!
# Restore orchestration of runc (`restore.go`)

A shallow embedding of `restoreContainer` and `criuOptions` from `restore.go`.

The Go code is straight-line code over external collaborators (the libcontainer
factory and container, the terminal, the signal handler, the file system and
the logger).  The embedding makes the collaborators explicit:

* `Env` gives the answer of every collaborator call, as a function of the
  arguments of the call (and, for `Container.Status`, of the number of earlier
  `Status` calls on the container);
* every collaborator call is recorded, with its arguments and its answer, as
  an `Event`; a run of `restoreContainer` produces the list of events in
  program order together with an `Outcome`.

Go's named results and deferred calls are embedded explicitly: a `return a, b`
first stores `a, b` in the named results `code, err`, then the deferred calls
run in reverse order of registration (`handler.Close()`, then the cleanup
closure), then the stored results are handed to the caller.
-/

namespace Runc

/-! ## Data model -/

/-- Modelled from the spec: the status enumeration of a container
(`libcontainer.Status`, declared outside `restore.go`), with the members the
data model lists. -/
inductive Status where
  | Created
  | Running
  | Paused
  | Checkpointed
  | Destroyed
  deriving DecidableEq, Repr

/-- A non-nil Go `error` value, identified by its message. A possibly nil
`error` is an `Option GoError`. -/
structure GoError where
  msg : String
  deriving DecidableEq, Repr

/-- The part of `cli.Context` that `restore.go` reads: global string flags,
the command's string flags and its boolean flags, each looked up by name. -/
structure Context where
  GlobalString : String → String
  Bool : String → Bool
  String : String → String

/-- The part of `specs.LinuxSpec` that `restoreContainer` reads
(`spec.Process.Terminal`). -/
structure LinuxSpec where
  Terminal : Bool
  deriving DecidableEq, Repr

/-- The `configs.Config` handed to `factory.Create`; its content is not
inspected by `restore.go`. -/
structure Config where
  tag : Nat
  deriving DecidableEq, Repr

/-- The record `libcontainer.CriuOpts` as filled in by `criuOptions`. -/
structure CriuOpts where
  ImagesDirectory : String
  WorkDirectory : String
  LeaveRunning : Bool
  TcpEstablished : Bool
  ExternalUnixConnections : Bool
  ShellJob : Bool
  FileLocks : Bool
  deriving DecidableEq, Repr

/-- The record `libcontainer.Process` as filled in by `restoreContainer`: the
three standard streams, given by their file descriptors. -/
structure Process where
  Stdin : Nat
  Stdout : Nat
  Stderr : Nat
  deriving DecidableEq, Repr

/-- One call made by `restoreContainer` to a collaborator, with the arguments
of the call and the answer it got. -/
inductive Event where
  | loadFactory (res : Option GoError)
  | factoryLoad (id : String) (res : Option GoError)
  | factoryCreate (id : String) (config : Config) (res : Option GoError)
  | mkdirAll (path : String) (perm : Nat) (res : Option GoError)
  | containerStatus (status : Status) (res : Option GoError)
  | logError (e : GoError)
  | fatal (e : GoError)
  | newTty (terminal : Bool) (rootuid : Nat) (res : Option GoError)
  | newSignalHandler
  | containerRestore (process : Process) (options : CriuOpts) (res : Option GoError)
  | removeAll (path : String) (res : Option GoError)
  | forward (process : Process) (code : Int) (res : Option GoError)
  | handlerClose
  | containerDestroy (res : Option GoError)
  deriving DecidableEq, Repr

/-- How a call ends: it hands `(code, err)` back to its caller, or the process
is ended inside the call by `fatal`. -/
inductive Outcome where
  | returned (code : Int) (err : Option GoError)
  | exited (e : GoError)
  deriving DecidableEq, Repr

/-- A run: the collaborator calls in program order, and how the call ended. -/
structure Run where
  trace : List Event
  outcome : Outcome
  deriving DecidableEq, Repr

/-- The answers of the collaborators. `containerStatus n` is the answer of the
call of `Container.Status` that comes after `n` earlier ones; every other
answer is a function of the arguments of the call.

`getCheckpointImagePath` and `filepath.Join` are functions that `restore.go`
calls and does not define; they are parameters here. -/
structure Env where
  getCheckpointImagePath : Context → String
  filepathJoin : String → String → String
  loadFactory : Option GoError
  factoryLoad : String → Option GoError
  factoryCreate : String → Config → Option GoError
  mkdirAll : String → Nat → Option GoError
  containerStatus : Nat → Status × Option GoError
  newTty : Bool → Nat → Option GoError
  containerRestore : Process → CriuOpts → Option GoError
  removeAll : String → Option GoError
  forward : Process → Int × Option GoError
  containerDestroy : Option GoError

/-! ## The code -/

/-- Modelled from the spec: `fatal`, a helper that `restore.go` calls and does
not define. An orchestration failure that is fatal ends the process with a
fixed non-zero code and a diagnostic, so the call of `fatal` is the last event
of the run and the run ends as `exited` with the error given to `fatal`. -/
def fatal (tr : List Event) (err : GoError) : Run :=
  ⟨tr ++ [Event.fatal err], Outcome.exited err⟩

/-- The value of `fmt.Errorf("Container with id %s already running", id)`. -/
def alreadyRunningError (id : String) : GoError :=
  ⟨"Container with id " ++ id ++ " already running"⟩

/-- The standard streams `os.Stdin`, `os.Stdout`, `os.Stderr` that
`restoreContainer` stores in the process descriptor. -/
def stdProcess : Process := ⟨0, 1, 2⟩

/-- The statement `if err != nil { logrus.Error(err) }`. -/
def logIfError (tr : List Event) (err : Option GoError) : List Event :=
  match err with
  | some e => tr ++ [Event.logError e]
  | none => tr

/-- The record built by `criuOptions` (lines 121-129). -/
def criuOpts (context : Context) (imagePath : String) : CriuOpts :=
  { ImagesDirectory := imagePath
    WorkDirectory := context.String "work-path"
    LeaveRunning := context.Bool "leave-running"
    TcpEstablished := context.Bool "tcp-established"
    ExternalUnixConnections := context.Bool "ext-unix-sk"
    ShellJob := context.Bool "shell-job"
    FileLocks := context.Bool "file-locks" }

/-- The function `criuOptions` (lines 116-130): resolve the images path with
`getCheckpointImagePath`, create the directory with mode `0655`, and build the
options. When `os.MkdirAll` fails, `fatal` is called with its error, inside
`criuOptions`; otherwise the caller goes on (`k`) with the options. -/
def criuOptions (env : Env) (context : Context) (tr : List Event)
    (k : List Event → CriuOpts → Run) : Run :=
  let imagePath := env.getCheckpointImagePath context
  match env.mkdirAll imagePath 0o655 with
  | some err => fatal (tr ++ [Event.mkdirAll imagePath 0o655 (some err)]) err
  | none => k (tr ++ [Event.mkdirAll imagePath 0o655 none]) (criuOpts context imagePath)

/-- The deferred closure of `restoreContainer` (lines 72-88). `err` is the
named result of `restoreContainer` at the time the closure runs, `n` the number
of `Status` calls made before. The `status, err` and the `err` declared inside
the closure are its own variables: the closure never assigns the named
results. -/
def deferredCleanup (env : Env) (options : CriuOpts) (n : Nat)
    (err : Option GoError) (tr : List Event) : List Event :=
  match err with
  | some _ => tr
  | none =>
    let st := env.containerStatus n
    let tr1 := logIfError (tr ++ [Event.containerStatus st.1 st.2]) st.2
    if st.1 ≠ Status.Checkpointed then
      let derr := env.containerDestroy
      let tr2 := logIfError (tr1 ++ [Event.containerDestroy derr]) derr
      let rerr := env.removeAll options.ImagesDirectory
      logIfError (tr2 ++ [Event.removeAll options.ImagesDirectory rerr]) rerr
    else tr1

/-- Lines 89-113 of `restoreContainer`, after the cleanup closure has been
deferred: the part of the body that ends in a `return`, followed by the
deferred calls. `n` is the number of `Status` calls made before. -/
def restoreBody (env : Env) (context : Context) (spec : LinuxSpec)
    (options : CriuOpts) (rootuid : Nat) (n : Nat) (tr : List Event) : Run :=
  let process := stdProcess
  match env.newTty spec.Terminal rootuid with
  | some err =>
    -- return -1, err : only the cleanup closure is deferred at this point
    let tr1 := tr ++ [Event.newTty spec.Terminal rootuid (some err)]
    ⟨deferredCleanup env options n (some err) tr1, Outcome.returned (-1) (some err)⟩
  | none =>
    let tr1 := tr ++ [Event.newTty spec.Terminal rootuid none, Event.newSignalHandler]
    match env.containerRestore process options with
    | some err =>
      let cst := env.containerStatus n
      let tr2 := logIfError
        (tr1 ++ [Event.containerRestore process options (some err),
                 Event.containerStatus cst.1 cst.2]) cst.2
      let tr3 :=
        if cst.1 = Status.Destroyed then
          let dest := env.filepathJoin (context.GlobalString "root") (context.GlobalString "id")
          let errVal := env.removeAll dest
          logIfError (tr2 ++ [Event.removeAll dest errVal]) errVal
        else tr2
      -- return -1, err : handler.Close(), then the cleanup closure
      ⟨deferredCleanup env options (n + 1) (some err) (tr3 ++ [Event.handlerClose]),
        Outcome.returned (-1) (some err)⟩
    | none =>
      let r := env.forward process
      let tr2 := tr1 ++ [Event.containerRestore process options none,
                         Event.forward process r.1 r.2]
      -- return handler.forward(process) : handler.Close(), then the cleanup closure
      ⟨deferredCleanup env options n r.2 (tr2 ++ [Event.handlerClose]),
        Outcome.returned r.1 r.2⟩

/-- Lines 62-113 of `restoreContainer`, once a container has been obtained:
`criuOptions`, the initial status query, the check for a running container,
and the rest of the body. -/
def restoreWithContainer (env : Env) (context : Context) (spec : LinuxSpec)
    (rootuid : Nat) (tr : List Event) : Run :=
  criuOptions env context tr fun tr1 options =>
    let st := env.containerStatus 0
    let tr2 := logIfError (tr1 ++ [Event.containerStatus st.1 st.2]) st.2
    if st.1 = Status.Running then
      fatal tr2 (alreadyRunningError (context.GlobalString "id"))
    else
      restoreBody env context spec options rootuid 1 tr2

/-- The function `restoreContainer` (lines 49-114): obtain the factory and the
container (`Load`, else `Create`), then go on with the container. The body
never reads the argument `imagePath`. -/
def restoreContainer (env : Env) (context : Context) (spec : LinuxSpec)
    (config : Config) (imagePath : String) : Run :=
  let _ := imagePath
  let rootuid := 0
  match env.loadFactory with
  | some err => ⟨[Event.loadFactory (some err)], Outcome.returned (-1) (some err)⟩
  | none =>
    let id := context.GlobalString "id"
    match env.factoryLoad id with
    | none =>
      restoreWithContainer env context spec rootuid
        [Event.loadFactory none, Event.factoryLoad id none]
    | some lerr =>
      match env.factoryCreate id config with
      | some err =>
        ⟨[Event.loadFactory none, Event.factoryLoad id (some lerr),
          Event.factoryCreate id config (some err)], Outcome.returned (-1) (some err)⟩
      | none =>
        restoreWithContainer env context spec rootuid
          [Event.loadFactory none, Event.factoryLoad id (some lerr),
           Event.factoryCreate id config none]

/-! ## The caller -/

/-- How the process of the `restore` command ends: with `os.Exit(status)`, or
inside a call of `fatal`. -/
inductive ProcessEnd where
  | osExit (status : Int)
  | fatal (e : GoError)
  deriving DecidableEq, Repr

/-- The answers of the other functions that the Action of `restoreCommand`
calls and `restore.go` does not define (`loadSpec`,
`createLibcontainerConfig`, `getDefaultImagePath`), and the first argument of
the command line (`context.Args().First()`). -/
structure ActionEnv where
  firstArg : String
  getDefaultImagePath : Context → String
  loadSpec : String → Except GoError LinuxSpec
  createLibcontainerConfig : String → LinuxSpec → Except GoError Config

/-- Lines 41-45 of the Action, once `restoreContainer` has run: when the call
ended inside `fatal` the process has ended there; when it returned a non-nil
error the Action calls `fatal(err)`; otherwise it calls `os.Exit(status)`. -/
def exitWith (outcome : Outcome) : ProcessEnd :=
  match outcome with
  | Outcome.exited e => ProcessEnd.fatal e
  | Outcome.returned _ (some err) => ProcessEnd.fatal err
  | Outcome.returned status none => ProcessEnd.osExit status

/-- The Action of `restoreCommand` (lines 28-46): resolve the images path, load
the spec, build the configuration (`fatal` on an error of either), call
`restoreContainer`, and end the process. -/
def restoreCommandAction (env : Env) (aenv : ActionEnv) (context : Context) : ProcessEnd :=
  let imagePath :=
    if context.String "image-path" = "" then aenv.getDefaultImagePath context
    else context.String "image-path"
  match aenv.loadSpec aenv.firstArg with
  | Except.error err => ProcessEnd.fatal err
  | Except.ok spec =>
    match aenv.createLibcontainerConfig (context.GlobalString "id") spec with
    | Except.error err => ProcessEnd.fatal err
    | Except.ok config =>
      exitWith (restoreContainer env context spec config imagePath).outcome

/-! ## Observations on traces -/

/-- The event is a call of `Container.Restore`. -/
def Event.isRestore : Event → Bool
  | Event.containerRestore _ _ _ => true
  | _ => false

/-- The event is a call of `Container.Restore` that returned `nil`. -/
def Event.isRestoreOk : Event → Bool
  | Event.containerRestore _ _ none => true
  | _ => false

/-- The event is a call of `Container.Restore` that returned the error `e`. -/
def Event.isRestoreError (e : GoError) : Event → Bool
  | Event.containerRestore _ _ (some e1) => decide (e1 = e)
  | _ => false

/-- The event is a call of `Container.Destroy`. -/
def Event.isDestroy : Event → Bool
  | Event.containerDestroy _ => true
  | _ => false

/-- The event is a call of `Container.Status`. -/
def Event.isStatus : Event → Bool
  | Event.containerStatus _ _ => true
  | _ => false

/-- The event is a call of `Factory.Load` or `Factory.Create`. -/
def Event.isFactoryCall : Event → Bool
  | Event.factoryLoad _ _ => true
  | Event.factoryCreate _ _ _ => true
  | _ => false

/-- The event is a call of `os.RemoveAll` on `path`. -/
def Event.isRemoveAllOf (path : String) : Event → Bool
  | Event.removeAll p _ => decide (p = path)
  | _ => false

/-- The event is a call of `os.MkdirAll` that returned an error. -/
def Event.isFailedMkdirAll : Event → Bool
  | Event.mkdirAll _ _ (some _) => true
  | _ => false

/-- The event is a call of `fatal`. -/
def Event.isFatal : Event → Bool
  | Event.fatal _ => true
  | _ => false

/-- The result of the event when it is a call of `handler.forward`. -/
def Event.forwardResult : Event → Option (Int × Option GoError)
  | Event.forward _ code err => some (code, err)
  | _ => none

/-- The options of the event when it is a call of `Container.Restore`. -/
def Event.restoreOptions : Event → Option CriuOpts
  | Event.containerRestore _ options _ => some options
  | _ => none

/-- Number of calls of `Container.Restore` in a trace. -/
def restoreCalls (tr : List Event) : Nat := tr.countP Event.isRestore

/-- Number of calls of `Container.Destroy` in a trace. -/
def destroyCalls (tr : List Event) : Nat := tr.countP Event.isDestroy

/-- Number of calls of `Container.Status` in a trace. -/
def statusCalls (tr : List Event) : Nat := tr.countP Event.isStatus

/-- Number of calls of `Factory.Load` and `Factory.Create` in a trace. -/
def factoryCalls (tr : List Event) : Nat := tr.countP Event.isFactoryCall

/-- Number of calls of `fatal` in a trace. -/
def fatalCalls (tr : List Event) : Nat := tr.countP Event.isFatal

/-- Number of calls of `os.RemoveAll` on `path` in a trace. -/
def removeAllCalls (path : String) (tr : List Event) : Nat :=
  tr.countP (Event.isRemoveAllOf path)

/-- The results of the calls of `handler.forward` in a trace, in order. -/
def forwardResults (tr : List Event) : List (Int × Option GoError) :=
  tr.filterMap Event.forwardResult

/-- The options given to the calls of `Container.Restore` in a trace. -/
def restoreOptions (tr : List Event) : List CriuOpts :=
  tr.filterMap Event.restoreOptions

/-- In the run with trace `tr`, `Container.Restore` returned the error `e`. -/
def restoreFailsWith (e : GoError) (tr : List Event) : Prop :=
  tr.any (Event.isRestoreError e) = true

/-- In the run with trace `tr`, `Container.Restore` returned `nil`. -/
def restoreSucceeds (tr : List Event) : Prop :=
  tr.any Event.isRestoreOk = true

/-- In the run with trace `tr`, `os.MkdirAll` returned an error. -/
def mkdirAllFails (tr : List Event) : Prop :=
  tr.any Event.isFailedMkdirAll = true

instance (e : GoError) (tr : List Event) : Decidable (restoreFailsWith e tr) :=
  inferInstanceAs (Decidable (tr.any (Event.isRestoreError e) = true))

instance (tr : List Event) : Decidable (restoreSucceeds tr) :=
  inferInstanceAs (Decidable (tr.any Event.isRestoreOk = true))

instance (tr : List Event) : Decidable (mkdirAllFails tr) :=
  inferInstanceAs (Decidable (tr.any Event.isFailedMkdirAll = true))

/-- The message `msg` contains the text `part`. -/
def containsText (msg part : String) : Prop := part.data <:+: msg.data

/-! ## Concrete invocations

Contexts and collaborators for the scenarios of the test plan. -/

/-- A context with the global flags `--id` and `--root` and the flag
`--image-path`; every other flag has its zero value. -/
def mkContext (id root imagePath : String) : Context :=
  { GlobalString := fun name => if name = "id" then id else if name = "root" then root else ""
    Bool := fun _ => false
    String := fun name => if name = "image-path" then imagePath else "" }

/-- Joining two clean path elements, as `filepath.Join` does. -/
def joinPath (a b : String) : String := a ++ "/" ++ b

/-- The images path of the scenarios: the `--image-path` override when it is
given, else `checkpoint` under the `root/id` directory. -/
def scenarioImagePath (context : Context) : String :=
  if context.String "image-path" = "" then
    joinPath (joinPath (context.GlobalString "root") (context.GlobalString "id")) "checkpoint"
  else context.String "image-path"

/-- The error of `Factory.Load` when no record exists. -/
def notFound : GoError := ⟨"container does not exist"⟩

/-- The error of a failed `Container.Restore`. -/
def restoreFailed : GoError := ⟨"criu failed: type NOTIFY errno 0"⟩

/-- The error of `os.MkdirAll` on a path that may not be written. -/
def permissionDenied : GoError := ⟨"mkdir /denied: permission denied"⟩

/-- Collaborators for which every call succeeds: the record exists, the
container is `Created` at first and `Destroyed` when queried again, and the
restored process exits with code 0. -/
def allSucceed : Env :=
  { getCheckpointImagePath := scenarioImagePath
    filepathJoin := joinPath
    loadFactory := none
    factoryLoad := fun _ => none
    factoryCreate := fun _ _ => none
    mkdirAll := fun _ _ => none
    containerStatus := fun n => if n = 0 then (Status.Created, none) else (Status.Destroyed, none)
    newTty := fun _ _ => none
    containerRestore := fun _ _ => none
    removeAll := fun _ => none
    forward := fun _ => (0, none)
    containerDestroy := none }

/-- Scenario A: no prior record, `Load` fails, `Create` succeeds, `Restore`
succeeds, the restored process exits with code 0. -/
def scenarioA : Env := { allSucceed with factoryLoad := fun _ => some notFound }

/-- Scenario B: the record exists and the container is `Running`. -/
def scenarioB : Env := { allSucceed with containerStatus := fun _ => (Status.Running, none) }

/-- Scenario C: `Create` succeeds, `Restore` fails, the status after the
failure is `Destroyed`. -/
def scenarioC : Env :=
  { allSucceed with
    factoryLoad := fun _ => some notFound
    containerRestore := fun _ _ => some restoreFailed }

/-- Scenario D: `Create` succeeds, `Restore` fails, the status after the
failure is `Checkpointed`. -/
def scenarioD : Env :=
  { scenarioC with
    containerStatus := fun n =>
      if n = 0 then (Status.Created, none) else (Status.Checkpointed, none) }

/-- Scenario E: the images directory cannot be created. -/
def scenarioE : Env := { allSucceed with mkdirAll := fun _ _ => some permissionDenied }

/-- Scenario F: `Restore` fails and every later step fails too: the status
query, the removals and `Destroy` all return errors. -/
def scenarioF : Env :=
  { scenarioC with
    containerStatus := fun n =>
      if n = 0 then (Status.Created, none) else (Status.Destroyed, some ⟨"status: no such file"⟩)
    removeAll := fun _ => some ⟨"unlinkat: device or resource busy"⟩
    containerDestroy := some ⟨"container is not destroyed"⟩ }

/-- Scenario G: `Restore` succeeds but `handler.forward` returns an error. -/
def scenarioG : Env := { scenarioA with forward := fun _ => (-1, some ⟨"wait: no child processes"⟩) }

/-- Scenario H: `Restore` succeeds, the restored process exits with code 7,
and both `Destroy` and the removal of the images directory fail. -/
def scenarioH : Env :=
  { scenarioA with
    forward := fun _ => (7, none)
    removeAll := fun _ => some ⟨"unlinkat: device or resource busy"⟩
    containerDestroy := some ⟨"container is not destroyed"⟩ }

/-- Scenario P: `Create` succeeds, `Restore` fails, the status after the
failure is `Paused`. -/
def scenarioP : Env :=
  { scenarioC with
    containerStatus := fun n =>
      if n = 0 then (Status.Created, none) else (Status.Paused, none) }

/-- The other collaborators of the Action in the scenarios: the spec and the
configuration are obtained without error. -/
def plainAction : ActionEnv :=
  { firstArg := "config.json"
    getDefaultImagePath := scenarioImagePath
    loadSpec := fun _ => Except.ok ⟨false⟩
    createLibcontainerConfig := fun _ _ => Except.ok ⟨0⟩ }

/-- The context of scenario P. -/
def contextP : Context := mkContext "c6" "/run/oci" ""

/-- The context of scenario A. -/
def contextA : Context := mkContext "c1" "/run/oci" ""

/-- The context of scenario B. -/
def contextB : Context := mkContext "c2" "/run/oci" ""

/-- The context of scenario C. -/
def contextC : Context := mkContext "c3" "/run/oci" ""

/-- The context of scenario D. -/
def contextD : Context := mkContext "c4" "/run/oci" ""

/-- The context of scenario E: the images path is overridden with a path that
may not be written. -/
def contextE : Context := mkContext "c5" "/run/oci" "/denied/images"

/-- A context whose `--image-path` is the `root/id` directory of the
container. -/
def contextAliased : Context := mkContext "c1" "/run/oci" "/run/oci/c1"

/-- The spec of the scenarios: no terminal. -/
def plainSpec : LinuxSpec := ⟨false⟩

/-- The configuration of the scenarios. -/
def plainConfig : Config := ⟨0⟩

/-! ## Auxiliary lemmas -/

theorem countP_logIfError (p : Event → Bool) (hp : ∀ e, p (Event.logError e) = false)
    (tr : List Event) (err : Option GoError) :
    (logIfError tr err).countP p = tr.countP p := by
  cases err with
  | none => rfl
  | some e => simp [logIfError, List.countP_append, List.countP_cons, hp]

theorem any_logIfError (p : Event → Bool) (hp : ∀ e, p (Event.logError e) = false)
    (tr : List Event) (err : Option GoError) :
    (logIfError tr err).any p = tr.any p := by
  cases err with
  | none => rfl
  | some e => simp [logIfError, hp]

@[simp] theorem restoreCalls_logIfError (tr : List Event) (err : Option GoError) :
    restoreCalls (logIfError tr err) = restoreCalls tr :=
  countP_logIfError _ (fun _ => rfl) _ _

@[simp] theorem destroyCalls_logIfError (tr : List Event) (err : Option GoError) :
    destroyCalls (logIfError tr err) = destroyCalls tr :=
  countP_logIfError _ (fun _ => rfl) _ _

@[simp] theorem statusCalls_logIfError (tr : List Event) (err : Option GoError) :
    statusCalls (logIfError tr err) = statusCalls tr :=
  countP_logIfError _ (fun _ => rfl) _ _

@[simp] theorem factoryCalls_logIfError (tr : List Event) (err : Option GoError) :
    factoryCalls (logIfError tr err) = factoryCalls tr :=
  countP_logIfError _ (fun _ => rfl) _ _

@[simp] theorem fatalCalls_logIfError (tr : List Event) (err : Option GoError) :
    fatalCalls (logIfError tr err) = fatalCalls tr :=
  countP_logIfError _ (fun _ => rfl) _ _

@[simp] theorem removeAllCalls_logIfError (path : String) (tr : List Event)
    (err : Option GoError) :
    removeAllCalls path (logIfError tr err) = removeAllCalls path tr :=
  countP_logIfError _ (fun _ => rfl) _ _

@[simp] theorem restoreFailsWith_logIfError (e : GoError) (tr : List Event)
    (err : Option GoError) :
    restoreFailsWith e (logIfError tr err) ↔ restoreFailsWith e tr := by
  unfold restoreFailsWith
  rw [any_logIfError _ (fun _ => rfl)]

@[simp] theorem restoreSucceeds_logIfError (tr : List Event) (err : Option GoError) :
    restoreSucceeds (logIfError tr err) ↔ restoreSucceeds tr := by
  unfold restoreSucceeds
  rw [any_logIfError _ (fun _ => rfl)]

@[simp] theorem mkdirAllFails_logIfError (tr : List Event) (err : Option GoError) :
    mkdirAllFails (logIfError tr err) ↔ mkdirAllFails tr := by
  unfold mkdirAllFails
  rw [any_logIfError _ (fun _ => rfl)]

@[simp] theorem forwardResults_logIfError (tr : List Event) (err : Option GoError) :
    forwardResults (logIfError tr err) = forwardResults tr := by
  cases err with
  | none => rfl
  | some e => simp [logIfError, forwardResults, List.filterMap_append, Event.forwardResult]

@[simp] theorem restoreCalls_append (a b : List Event) :
    restoreCalls (a ++ b) = restoreCalls a + restoreCalls b := List.countP_append _ _ _

@[simp] theorem destroyCalls_append (a b : List Event) :
    destroyCalls (a ++ b) = destroyCalls a + destroyCalls b := List.countP_append _ _ _

@[simp] theorem statusCalls_append (a b : List Event) :
    statusCalls (a ++ b) = statusCalls a + statusCalls b := List.countP_append _ _ _

@[simp] theorem factoryCalls_append (a b : List Event) :
    factoryCalls (a ++ b) = factoryCalls a + factoryCalls b := List.countP_append _ _ _

@[simp] theorem fatalCalls_append (a b : List Event) :
    fatalCalls (a ++ b) = fatalCalls a + fatalCalls b := List.countP_append _ _ _

@[simp] theorem removeAllCalls_append (path : String) (a b : List Event) :
    removeAllCalls path (a ++ b) = removeAllCalls path a + removeAllCalls path b :=
  List.countP_append _ _ _

@[simp] theorem restoreFailsWith_append (e : GoError) (a b : List Event) :
    restoreFailsWith e (a ++ b) ↔ restoreFailsWith e a ∨ restoreFailsWith e b := by
  simp [restoreFailsWith, List.any_append, -List.any_eq_true]

@[simp] theorem restoreSucceeds_append (a b : List Event) :
    restoreSucceeds (a ++ b) ↔ restoreSucceeds a ∨ restoreSucceeds b := by
  simp [restoreSucceeds, List.any_append, -List.any_eq_true]

@[simp] theorem mkdirAllFails_append (a b : List Event) :
    mkdirAllFails (a ++ b) ↔ mkdirAllFails a ∨ mkdirAllFails b := by
  simp [mkdirAllFails, List.any_append, -List.any_eq_true]

@[simp] theorem forwardResults_append (a b : List Event) :
    forwardResults (a ++ b) = forwardResults a ++ forwardResults b :=
  List.filterMap_append _ _ _

@[simp] theorem restoreCalls_nil : restoreCalls [] = 0 := rfl

@[simp] theorem destroyCalls_nil : destroyCalls [] = 0 := rfl

@[simp] theorem statusCalls_nil : statusCalls [] = 0 := rfl

@[simp] theorem factoryCalls_nil : factoryCalls [] = 0 := rfl

@[simp] theorem fatalCalls_nil : fatalCalls [] = 0 := rfl

@[simp] theorem removeAllCalls_nil (path : String) : removeAllCalls path [] = 0 := rfl

@[simp] theorem forwardResults_nil : forwardResults [] = [] := rfl

@[simp] theorem restoreFailsWith_nil (e : GoError) : ¬ restoreFailsWith e [] := by
  simp [restoreFailsWith]

@[simp] theorem restoreSucceeds_nil : ¬ restoreSucceeds [] := by
  simp [restoreSucceeds]

@[simp] theorem mkdirAllFails_nil : ¬ mkdirAllFails [] := by
  simp [mkdirAllFails]

@[simp] theorem restoreCalls_cons (e : Event) (tr : List Event) :
    restoreCalls (e :: tr) = restoreCalls tr + if e.isRestore = true then 1 else 0 :=
  List.countP_cons _ _ _

@[simp] theorem destroyCalls_cons (e : Event) (tr : List Event) :
    destroyCalls (e :: tr) = destroyCalls tr + if e.isDestroy = true then 1 else 0 :=
  List.countP_cons _ _ _

@[simp] theorem statusCalls_cons (e : Event) (tr : List Event) :
    statusCalls (e :: tr) = statusCalls tr + if e.isStatus = true then 1 else 0 :=
  List.countP_cons _ _ _

@[simp] theorem factoryCalls_cons (e : Event) (tr : List Event) :
    factoryCalls (e :: tr) = factoryCalls tr + if e.isFactoryCall = true then 1 else 0 :=
  List.countP_cons _ _ _

@[simp] theorem fatalCalls_cons (e : Event) (tr : List Event) :
    fatalCalls (e :: tr) = fatalCalls tr + if e.isFatal = true then 1 else 0 :=
  List.countP_cons _ _ _

@[simp] theorem removeAllCalls_cons (path : String) (e : Event) (tr : List Event) :
    removeAllCalls path (e :: tr)
      = removeAllCalls path tr + if e.isRemoveAllOf path = true then 1 else 0 :=
  List.countP_cons _ _ _

@[simp] theorem restoreFailsWith_cons (e : GoError) (ev : Event) (tr : List Event) :
    restoreFailsWith e (ev :: tr) ↔ ev.isRestoreError e = true ∨ restoreFailsWith e tr := by
  simp [restoreFailsWith, -List.any_eq_true]

@[simp] theorem restoreSucceeds_cons (ev : Event) (tr : List Event) :
    restoreSucceeds (ev :: tr) ↔ ev.isRestoreOk = true ∨ restoreSucceeds tr := by
  simp [restoreSucceeds, -List.any_eq_true]

@[simp] theorem mkdirAllFails_cons (ev : Event) (tr : List Event) :
    mkdirAllFails (ev :: tr) ↔ ev.isFailedMkdirAll = true ∨ mkdirAllFails tr := by
  simp [mkdirAllFails, -List.any_eq_true]

@[simp] theorem forwardResults_cons (ev : Event) (tr : List Event) :
    forwardResults (ev :: tr)
      = (match ev.forwardResult with
          | none => forwardResults tr
          | some r => r :: forwardResults tr) := by
  cases h : ev.forwardResult <;> simp [forwardResults, List.filterMap_cons, h]

@[simp] theorem restoreOptions_nil : restoreOptions [] = [] := rfl

@[simp] theorem restoreOptions_cons (ev : Event) (tr : List Event) :
    restoreOptions (ev :: tr)
      = (match ev.restoreOptions with
          | none => restoreOptions tr
          | some o => o :: restoreOptions tr) := by
  cases h : ev.restoreOptions <;> simp [restoreOptions, List.filterMap_cons, h]

@[simp] theorem restoreOptions_append (a b : List Event) :
    restoreOptions (a ++ b) = restoreOptions a ++ restoreOptions b :=
  List.filterMap_append _ _ _

@[simp] theorem restoreOptions_logIfError (tr : List Event) (err : Option GoError) :
    restoreOptions (logIfError tr err) = restoreOptions tr := by
  cases err with
  | none => rfl
  | some e => simp [logIfError, Event.restoreOptions]

theorem alreadyRunningError_contains (id : String) :
    containsText (alreadyRunningError id).msg "already running" ∧
    containsText (alreadyRunningError id).msg id := by
  constructor
  · refine ⟨("Container with id " ++ id ++ " ").data, [], ?_⟩
    simp [alreadyRunningError, String.data_append]
  · refine ⟨"Container with id ".data, " already running".data, ?_⟩
    simp [alreadyRunningError, String.data_append]

/-! ## The running-container check -/

/-- C1: when the initial status query takes place and reports `Running`, the
call fails through `fatal` with the error "Container with id <id> already
running" (the message contains "already running" and the container id), and
neither `Container.Restore` nor `Container.Destroy` is called. -/
theorem running_container_is_rejected (env : Env) (context : Context) (spec : LinuxSpec)
    (config : Config) (imagePath : String)
    (hquery : 0 < statusCalls (restoreContainer env context spec config imagePath).trace)
    (hrun : (env.containerStatus 0).1 = Status.Running) :
    (restoreContainer env context spec config imagePath).outcome
        = Outcome.exited (alreadyRunningError (context.GlobalString "id")) ∧
      containsText (alreadyRunningError (context.GlobalString "id")).msg "already running" ∧
      containsText (alreadyRunningError (context.GlobalString "id")).msg
        (context.GlobalString "id") ∧
      restoreCalls (restoreContainer env context spec config imagePath).trace = 0 ∧
      destroyCalls (restoreContainer env context spec config imagePath).trace = 0 := by
  have hc := alreadyRunningError_contains (context.GlobalString "id")
  refine ⟨?_, hc.1, hc.2, ?_, ?_⟩ <;>
  · simp only [restoreContainer, restoreWithContainer, restoreBody, criuOptions,
      deferredCleanup, fatal] at *
    repeat' split
    all_goals simp_all [Event.isStatus, Event.isRestore, Event.isDestroy]

/-- Scenario B is an instance of C1: the record of "c2" exists and is
`Running`; the call ends in `fatal` with "Container with id c2 already
running" and `Restore` is never attempted. -/
theorem running_container_is_rejected_witness :
    0 < statusCalls (restoreContainer scenarioB contextB plainSpec plainConfig "").trace ∧
      (scenarioB.containerStatus 0).1 = Status.Running ∧
      (restoreContainer scenarioB contextB plainSpec plainConfig "").outcome
        = Outcome.exited ⟨"Container with id c2 already running"⟩ ∧
      restoreCalls (restoreContainer scenarioB contextB plainSpec plainConfig "").trace = 0 :=
  have h := running_container_is_rejected scenarioB contextB plainSpec plainConfig ""
    (by decide) (by decide)
  ⟨by decide, by decide, h.1, h.2.2.2.1⟩

/-! ## The cleanup closure -/

/-- C2, the code at the failing input (scenario P): `Load` fails, `Create`
succeeds, `Restore` returns an error and the status queried after the failure
is `Paused`, not `Checkpointed`. The cleanup closure returns at once:
`Container.Destroy` is not called, `os.RemoveAll` is called on no directory,
and the call returns -1 with the error of `Restore`; the container that this
call created is left in place. -/
theorem failed_restore_leaves_created_container :
    (restoreContainer scenarioP contextP plainSpec plainConfig "").trace
        = [Event.loadFactory none,
           Event.factoryLoad "c6" (some notFound),
           Event.factoryCreate "c6" plainConfig none,
           Event.mkdirAll "/run/oci/c6/checkpoint" 0o655 none,
           Event.containerStatus Status.Created none,
           Event.newTty false 0 none,
           Event.newSignalHandler,
           Event.containerRestore stdProcess
             (criuOpts contextP "/run/oci/c6/checkpoint") (some restoreFailed),
           Event.containerStatus Status.Paused none,
           Event.handlerClose] ∧
      (restoreContainer scenarioP contextP plainSpec plainConfig "").outcome
        = Outcome.returned (-1) (some restoreFailed) ∧
      restoreFailsWith restoreFailed
        (restoreContainer scenarioP contextP plainSpec plainConfig "").trace ∧
      (scenarioP.containerStatus 1).1 ≠ Status.Checkpointed ∧
      destroyCalls (restoreContainer scenarioP contextP plainSpec plainConfig "").trace = 0 ∧
      removeAllCalls "/run/oci/c6/checkpoint"
        (restoreContainer scenarioP contextP plainSpec plainConfig "").trace = 0 ∧
      removeAllCalls "/run/oci/c6"
        (restoreContainer scenarioP contextP plainSpec plainConfig "").trace = 0 := by
  decide

/-- C3 fails in scenario A: `Restore` succeeds and `handler.forward` returns
code 0 without error, yet `Container.Destroy` is called and `os.RemoveAll` is
called on the images directory. -/
theorem cleanup_after_success_counterexample :
    restoreSucceeds (restoreContainer scenarioA contextA plainSpec plainConfig "").trace ∧
      (scenarioA.forward stdProcess).2 = none ∧
      destroyCalls (restoreContainer scenarioA contextA plainSpec plainConfig "").trace = 1 ∧
      removeAllCalls (scenarioA.getCheckpointImagePath contextA)
        (restoreContainer scenarioA contextA plainSpec plainConfig "").trace = 1 := by
  decide

/-- C3, amended: the cleanup closure is evaluated only when the call returns a
nil error. When `Restore` succeeds and `handler.forward` returns without
error, the status is queried again and, unless it is `Checkpointed`,
`Container.Destroy` is called exactly once and `os.RemoveAll` is called
exactly once on the images directory; when it is `Checkpointed`, or when
`handler.forward` returns an error, neither is called. -/
theorem cleanup_runs_after_success (env : Env) (context : Context) (spec : LinuxSpec)
    (config : Config) (imagePath : String)
    (hsucc : restoreSucceeds (restoreContainer env context spec config imagePath).trace) :
    ((env.forward stdProcess).2 = none ∧ (env.containerStatus 1).1 ≠ Status.Checkpointed →
        statusCalls (restoreContainer env context spec config imagePath).trace = 2 ∧
        destroyCalls (restoreContainer env context spec config imagePath).trace = 1 ∧
        removeAllCalls (env.getCheckpointImagePath context)
          (restoreContainer env context spec config imagePath).trace = 1) ∧
      ((env.forward stdProcess).2 = none ∧ (env.containerStatus 1).1 = Status.Checkpointed →
        statusCalls (restoreContainer env context spec config imagePath).trace = 2 ∧
        destroyCalls (restoreContainer env context spec config imagePath).trace = 0 ∧
        removeAllCalls (env.getCheckpointImagePath context)
          (restoreContainer env context spec config imagePath).trace = 0) ∧
      ((env.forward stdProcess).2 ≠ none →
        statusCalls (restoreContainer env context spec config imagePath).trace = 1 ∧
        destroyCalls (restoreContainer env context spec config imagePath).trace = 0 ∧
        removeAllCalls (env.getCheckpointImagePath context)
          (restoreContainer env context spec config imagePath).trace = 0) := by
  refine ⟨?_, ?_, ?_⟩ <;> intro h <;>
  · simp only [restoreContainer, restoreWithContainer, restoreBody, criuOptions,
      deferredCleanup, fatal] at *
    repeat' split
    all_goals simp_all [Event.isStatus, Event.isDestroy, Event.isRemoveAllOf,
      Event.isRestoreOk, criuOpts]

/-- Scenario A is an instance of the amended C3: after the successful run the
container is destroyed and the images directory removed. -/
theorem cleanup_runs_after_success_witness :
    restoreSucceeds (restoreContainer scenarioA contextA plainSpec plainConfig "").trace ∧
      destroyCalls (restoreContainer scenarioA contextA plainSpec plainConfig "").trace = 1 :=
  have h := cleanup_runs_after_success scenarioA contextA plainSpec plainConfig "" (by decide)
  ⟨by decide, (h.1 (by decide)).2.1⟩

/-- C4: when `Restore` returns an error `e` and the status queried after the
failure is `Checkpointed`, `Container.Destroy` is not called, `os.RemoveAll` is
called neither on the images directory nor on the `root/id` directory, and the
call still returns the error. -/
theorem checkpointed_state_is_preserved (env : Env) (context : Context) (spec : LinuxSpec)
    (config : Config) (imagePath : String) (e : GoError)
    (hfail : restoreFailsWith e (restoreContainer env context spec config imagePath).trace)
    (hck : (env.containerStatus 1).1 = Status.Checkpointed) :
    destroyCalls (restoreContainer env context spec config imagePath).trace = 0 ∧
      removeAllCalls (env.getCheckpointImagePath context)
        (restoreContainer env context spec config imagePath).trace = 0 ∧
      removeAllCalls (env.filepathJoin (context.GlobalString "root") (context.GlobalString "id"))
        (restoreContainer env context spec config imagePath).trace = 0 ∧
      (restoreContainer env context spec config imagePath).outcome
        = Outcome.returned (-1) (some e) := by
  refine ⟨?_, ?_, ?_, ?_⟩ <;>
  · simp only [restoreContainer, restoreWithContainer, restoreBody, criuOptions,
      deferredCleanup, fatal] at *
    repeat' split
    all_goals simp_all [Event.isDestroy, Event.isRemoveAllOf, Event.isRestoreError]

/-- Scenario D is an instance of C4: the images of "c4" are preserved and the
error of `Restore` is returned. -/
theorem checkpointed_state_is_preserved_witness :
    restoreFailsWith restoreFailed
        (restoreContainer scenarioD contextD plainSpec plainConfig "").trace ∧
      (scenarioD.containerStatus 1).1 = Status.Checkpointed ∧
      destroyCalls (restoreContainer scenarioD contextD plainSpec plainConfig "").trace = 0 ∧
      (restoreContainer scenarioD contextD plainSpec plainConfig "").outcome
        = Outcome.returned (-1) (some restoreFailed) :=
  have h := checkpointed_state_is_preserved scenarioD contextD plainSpec plainConfig ""
    restoreFailed (by decide) (by decide)
  ⟨by decide, by decide, h.1, h.2.2.2⟩

/-! ## The result of the call -/

/-- C6: when `Restore` succeeds, `handler.forward` is called exactly once and
the call returns exactly the pair that `handler.forward(process)` returned,
whatever happens in `handler.Close` and in the cleanup closure. -/
theorem forward_result_is_returned (env : Env) (context : Context) (spec : LinuxSpec)
    (config : Config) (imagePath : String)
    (hsucc : restoreSucceeds (restoreContainer env context spec config imagePath).trace) :
    forwardResults (restoreContainer env context spec config imagePath).trace
        = [((env.forward stdProcess).1, (env.forward stdProcess).2)] ∧
      (restoreContainer env context spec config imagePath).outcome
        = Outcome.returned (env.forward stdProcess).1 (env.forward stdProcess).2 := by
  refine ⟨?_, ?_⟩ <;>
  · simp only [restoreContainer, restoreWithContainer, restoreBody, criuOptions,
      deferredCleanup, fatal] at *
    repeat' split
    all_goals simp_all [Event.forwardResult, Event.isRestoreOk]

/-- Scenario H is an instance of C6: the restored process exits with code 7,
`Destroy` and the removal of the images directory fail in the cleanup, and the
call returns code 7 with a nil error. -/
theorem forward_result_is_returned_witness :
    restoreSucceeds (restoreContainer scenarioH contextA plainSpec plainConfig "").trace ∧
      (restoreContainer scenarioH contextA plainSpec plainConfig "").outcome
        = Outcome.returned 7 none :=
  ⟨by decide,
    (forward_result_is_returned scenarioH contextA plainSpec plainConfig "" (by decide)).2⟩

/-- C7: when `Restore` returns an error `e`, the call returns code -1 together
with exactly `e`, whatever the answers of the later steps (the status query,
the removal of `root/id`, `Destroy`, the removal of the images directory). -/
theorem restore_error_is_returned (env : Env) (context : Context) (spec : LinuxSpec)
    (config : Config) (imagePath : String) (e : GoError)
    (hfail : restoreFailsWith e (restoreContainer env context spec config imagePath).trace) :
    (restoreContainer env context spec config imagePath).outcome
      = Outcome.returned (-1) (some e) := by
  simp only [restoreContainer, restoreWithContainer, restoreBody, criuOptions,
    deferredCleanup, fatal] at *
  repeat' split
  all_goals simp_all [Event.isRestoreError]

/-- Scenario F is an instance of C7: the status query and the removal of
`root/id` fail after the failed `Restore`, and the error of `Restore` is the
one returned. -/
theorem restore_error_is_returned_witness :
    restoreFailsWith restoreFailed
        (restoreContainer scenarioF contextC plainSpec plainConfig "").trace ∧
      (restoreContainer scenarioF contextC plainSpec plainConfig "").outcome
        = Outcome.returned (-1) (some restoreFailed) :=
  ⟨by decide,
    restore_error_is_returned scenarioF contextC plainSpec plainConfig "" restoreFailed
      (by decide)⟩

/-! ## The images directory and the factory -/

/-- C5 fails in scenario E: `os.MkdirAll` fails on the images directory, and
`Factory.Load` has been invoked before it. -/
theorem mkdir_failure_after_load_counterexample :
    mkdirAllFails (restoreContainer scenarioE contextE plainSpec plainConfig "").trace ∧
      factoryCalls (restoreContainer scenarioE contextE plainSpec plainConfig "").trace = 1 ∧
      (restoreContainer scenarioE contextE plainSpec plainConfig "").trace
        = [Event.loadFactory none, Event.factoryLoad "c5" none,
           Event.mkdirAll "/denied/images" 0o655 (some permissionDenied),
           Event.fatal permissionDenied] := by
  decide

/-- C5, amended: the images directory is created after the container has been
obtained from the factory. When `os.MkdirAll` fails with `err`, the calls made
are exactly `loadFactory`, `Factory.Load` (and `Factory.Create` when `Load`
failed), the failed `os.MkdirAll` and `fatal(err)`, in this order, and the call
ends there: no operation of the container is invoked. -/
theorem mkdir_failure_follows_factory_calls (env : Env) (context : Context)
    (spec : LinuxSpec) (config : Config) (imagePath : String)
    (hfail : mkdirAllFails (restoreContainer env context spec config imagePath).trace) :
    ∃ err, env.mkdirAll (env.getCheckpointImagePath context) 0o655 = some err ∧
      (restoreContainer env context spec config imagePath).outcome = Outcome.exited err ∧
      ((restoreContainer env context spec config imagePath).trace
          = [Event.loadFactory none, Event.factoryLoad (context.GlobalString "id") none,
             Event.mkdirAll (env.getCheckpointImagePath context) 0o655 (some err),
             Event.fatal err] ∨
        ∃ lerr, (restoreContainer env context spec config imagePath).trace
          = [Event.loadFactory none,
             Event.factoryLoad (context.GlobalString "id") (some lerr),
             Event.factoryCreate (context.GlobalString "id") config none,
             Event.mkdirAll (env.getCheckpointImagePath context) 0o655 (some err),
             Event.fatal err]) := by
  simp only [restoreContainer, restoreWithContainer, restoreBody, criuOptions,
    deferredCleanup, fatal] at *
  repeat' split
  all_goals simp_all [Event.isFailedMkdirAll]

/-- Scenario E is an instance of the amended C5: the call ends in `fatal` with
the error of `os.MkdirAll`. -/
theorem mkdir_failure_follows_factory_calls_witness :
    mkdirAllFails (restoreContainer scenarioE contextE plainSpec plainConfig "").trace ∧
      (restoreContainer scenarioE contextE plainSpec plainConfig "").outcome
        = Outcome.exited permissionDenied := by
  refine ⟨by decide, ?_⟩
  obtain ⟨err, h1, h2, _⟩ :=
    mkdir_failure_follows_factory_calls scenarioE contextE plainSpec plainConfig ""
      (by decide)
  have h3 : scenarioE.mkdirAll (scenarioE.getCheckpointImagePath contextE) 0o655
      = some permissionDenied := by decide
  rw [h3] at h1
  cases h1
  exact h2

/-! ## The `root/id` directory -/

/-- C8 fails for a successful `Restore` when `--image-path` is the `root/id`
directory: the cleanup after the successful run calls `os.RemoveAll` on the
images directory, which is `root/id`. -/
theorem root_directory_removed_after_success_counterexample :
    restoreSucceeds
        (restoreContainer scenarioA contextAliased plainSpec plainConfig "").trace ∧
      scenarioA.filepathJoin (contextAliased.GlobalString "root")
        (contextAliased.GlobalString "id") = "/run/oci/c1" ∧
      removeAllCalls "/run/oci/c1"
        (restoreContainer scenarioA contextAliased plainSpec plainConfig "").trace = 1 := by
  decide

/-- C8, amended: when `Restore` returns an error, `os.RemoveAll` is called on
`filepath.Join(root, id)` (once) if the status queried right after the failure
is `Destroyed`, and not at all for any other status; when `Restore` succeeds,
`os.RemoveAll` is not called on that directory, unless it is also the images
directory. -/
theorem root_directory_removal (env : Env) (context : Context) (spec : LinuxSpec)
    (config : Config) (imagePath : String) :
    (∀ e, restoreFailsWith e (restoreContainer env context spec config imagePath).trace →
        ((env.containerStatus 1).1 = Status.Destroyed →
          removeAllCalls
            (env.filepathJoin (context.GlobalString "root") (context.GlobalString "id"))
            (restoreContainer env context spec config imagePath).trace = 1) ∧
        ((env.containerStatus 1).1 ≠ Status.Destroyed →
          removeAllCalls
            (env.filepathJoin (context.GlobalString "root") (context.GlobalString "id"))
            (restoreContainer env context spec config imagePath).trace = 0)) ∧
      (restoreSucceeds (restoreContainer env context spec config imagePath).trace →
        env.getCheckpointImagePath context
          ≠ env.filepathJoin (context.GlobalString "root") (context.GlobalString "id") →
        removeAllCalls
          (env.filepathJoin (context.GlobalString "root") (context.GlobalString "id"))
          (restoreContainer env context spec config imagePath).trace = 0) := by
  refine ⟨fun e hfail => ⟨fun h => ?_, fun h => ?_⟩, fun hsucc h => ?_⟩ <;>
  · simp only [restoreContainer, restoreWithContainer, restoreBody, criuOptions,
      deferredCleanup, fatal] at *
    repeat' split
    all_goals simp_all [Event.isRemoveAllOf, Event.isRestoreError, Event.isRestoreOk, criuOpts]

/-- Scenario C is an instance of the amended C8: `Restore` fails, the status
after the failure is `Destroyed`, and `/run/oci/c3` is removed. -/
theorem root_directory_removal_witness :
    restoreFailsWith restoreFailed
        (restoreContainer scenarioC contextC plainSpec plainConfig "").trace ∧
      (scenarioC.containerStatus 1).1 = Status.Destroyed ∧
      removeAllCalls
        (scenarioC.filepathJoin (contextC.GlobalString "root") (contextC.GlobalString "id"))
        (restoreContainer scenarioC contextC plainSpec plainConfig "").trace = 1 :=
  ⟨by decide, by decide,
    ((root_directory_removal scenarioC contextC plainSpec plainConfig "").1 restoreFailed
      (by decide)).1 (by decide)⟩

/-! ## Ending the process -/

/-- C9 fails in scenarios B, E and G: with a `Running` container and with an
images directory that cannot be created, the call ends inside `fatal` and
hands no `(code, err)` pair back to its caller; and when the call returns -1
with the error of `handler.forward`, the caller does not exit with that code:
it calls `fatal` with the error. -/
theorem process_ended_by_fatal_counterexample :
    (restoreContainer scenarioB contextB plainSpec plainConfig "").outcome
        = Outcome.exited ⟨"Container with id c2 already running"⟩ ∧
      (restoreContainer scenarioE contextE plainSpec plainConfig "").outcome
        = Outcome.exited permissionDenied ∧
      (¬ ∃ code err, (restoreContainer scenarioB contextB plainSpec plainConfig "").outcome
        = Outcome.returned code err) ∧
      (restoreContainer scenarioG contextA plainSpec plainConfig "").outcome
        = Outcome.returned (-1) (some ⟨"wait: no child processes"⟩) ∧
      restoreCommandAction scenarioG plainAction contextA
        = ProcessEnd.fatal ⟨"wait: no child processes"⟩ := by
  refine ⟨by decide, by decide, ?_, by decide, by decide⟩
  rintro ⟨code, err, h⟩
  have hB : (restoreContainer scenarioB contextB plainSpec plainConfig "").outcome
      = Outcome.exited ⟨"Container with id c2 already running"⟩ := by decide
  rw [hB] at h
  cases h

/-- C9, amended: the call ends the process itself, through `fatal`, exactly
when creating the images directory fails or the initial status query reports
`Running`; in every other execution `fatal` is not called and the call hands a
`(code, err)` pair back to its caller. The caller (the Action, once the spec
and the configuration are obtained) exits with that code when the error is
nil, and calls `fatal` with the error when it is not. -/
theorem returns_unless_fatal (env : Env) (context : Context) (spec : LinuxSpec)
    (config : Config) (imagePath : String) :
    ((∃ e, (restoreContainer env context spec config imagePath).outcome = Outcome.exited e) ↔
        (mkdirAllFails (restoreContainer env context spec config imagePath).trace ∨
          (0 < statusCalls (restoreContainer env context spec config imagePath).trace ∧
            (env.containerStatus 0).1 = Status.Running))) ∧
      ((∃ code err, (restoreContainer env context spec config imagePath).outcome
          = Outcome.returned code err) ↔
        fatalCalls (restoreContainer env context spec config imagePath).trace = 0) ∧
      (∀ aenv : ActionEnv, aenv.loadSpec aenv.firstArg = Except.ok spec →
        aenv.createLibcontainerConfig (context.GlobalString "id") spec = Except.ok config →
        (∀ code, (restoreContainer env context spec config imagePath).outcome
            = Outcome.returned code none →
          restoreCommandAction env aenv context = ProcessEnd.osExit code) ∧
        (∀ code e, (restoreContainer env context spec config imagePath).outcome
            = Outcome.returned code (some e) →
          restoreCommandAction env aenv context = ProcessEnd.fatal e) ∧
        (∀ e, (restoreContainer env context spec config imagePath).outcome
            = Outcome.exited e →
          restoreCommandAction env aenv context = ProcessEnd.fatal e)) := by
  refine ⟨?_, ?_, ?_⟩
  · simp only [restoreContainer, restoreWithContainer, restoreBody, criuOptions,
      deferredCleanup, fatal] at *
    repeat' split
    all_goals simp_all [Event.isFailedMkdirAll, Event.isStatus, Event.isFatal]
  · simp only [restoreContainer, restoreWithContainer, restoreBody, criuOptions,
      deferredCleanup, fatal] at *
    repeat' split
    all_goals simp_all [Event.isFailedMkdirAll, Event.isStatus, Event.isFatal]
  · intro aenv hspec hconf
    have key : restoreCommandAction env aenv context
        = exitWith (restoreContainer env context spec config imagePath).outcome := by
      simp only [restoreCommandAction, hspec, hconf]
      rfl
    refine ⟨fun code h => ?_, fun code e h => ?_, fun e h => ?_⟩ <;>
    · rw [key, h]
      rfl

/-- Scenarios H and G are instances of the amended C9: when the call returns
code 7 with a nil error the Action ends the process with `os.Exit(7)`, and when
it returns -1 with the error of `handler.forward` the Action ends the process
in `fatal` with that error. -/
theorem returns_unless_fatal_witness :
    restoreCommandAction scenarioH plainAction contextA = ProcessEnd.osExit 7 ∧
      restoreCommandAction scenarioG plainAction contextA
        = ProcessEnd.fatal ⟨"wait: no child processes"⟩ :=
  ⟨((returns_unless_fatal scenarioH contextA plainSpec plainConfig "").2.2 plainAction
      rfl rfl).1 7 (by decide),
    ((returns_unless_fatal scenarioG contextA plainSpec plainConfig "").2.2 plainAction
      rfl rfl).2.1 (-1) ⟨"wait: no child processes"⟩ (by decide)⟩

/-! ## The `imagePath` argument -/

/-- C10: the run of `restoreContainer` (the calls made, with their arguments
and answers, and the result) is the same for any two values of `imagePath`,
and the options given to `Container.Restore` carry the images directory
obtained from `getCheckpointImagePath(context)`. -/
theorem imagePath_argument_is_ignored (env : Env) (context : Context) (spec : LinuxSpec)
    (config : Config) (imagePath1 imagePath2 : String) :
    restoreContainer env context spec config imagePath1
        = restoreContainer env context spec config imagePath2 ∧
      ∀ options ∈ restoreOptions (restoreContainer env context spec config imagePath1).trace,
        options = criuOpts context (env.getCheckpointImagePath context) ∧
        options.ImagesDirectory = env.getCheckpointImagePath context := by
  refine ⟨rfl, ?_⟩
  intro options
  simp only [restoreContainer, restoreWithContainer, restoreBody, criuOptions,
    deferredCleanup, fatal] at *
  repeat' split
  all_goals simp_all [Event.restoreOptions, criuOpts]

/-- Scenario A is an instance of C10: with the images path "/tmp/other" as
argument the run is the one obtained with the default path, and `Restore`
gets the images directory `/run/oci/c1/checkpoint`. -/
theorem imagePath_argument_is_ignored_witness :
    restoreContainer scenarioA contextA plainSpec plainConfig "/tmp/other"
        = restoreContainer scenarioA contextA plainSpec plainConfig "/run/oci/c1/checkpoint" ∧
      (criuOpts contextA (scenarioA.getCheckpointImagePath contextA)).ImagesDirectory
        = "/run/oci/c1/checkpoint" ∧
      (criuOpts contextA (scenarioA.getCheckpointImagePath contextA)).ImagesDirectory
        = scenarioA.getCheckpointImagePath contextA :=
  have h := imagePath_argument_is_ignored scenarioA contextA plainSpec plainConfig
    "/tmp/other" "/run/oci/c1/checkpoint"
  ⟨h.1, by decide,
    (h.2 (criuOpts contextA (scenarioA.getCheckpointImagePath contextA)) (by decide)).2⟩

end Runc
